import Mathlib

set_option maxRecDepth 2000

/-!
Verification development for the voyagent-api flight-search assistant.

Modelling conventions, used throughout:

* Python strings are modelled by their character sequences (`List Char`);
  the character classes of the `re` patterns (`\s`, `\w`, `\d`, `[A-Za-z]`)
  are modelled over ASCII, which covers the inputs the program is written
  for.
* Python floats are modelled by `PyFloat`: exact rationals plus the three
  non-finite doubles `+inf`, `-inf` and `nan`.  `float` applied to a
  string accepts the textual forms `inf`/`infinity`/`nan` and PEP-515
  underscores, and a decimal form whose exact magnitude reaches the
  binary64 overflow threshold parses to the corresponding infinity, as in
  CPython's `strtod`.  Finite results are kept as exact rationals (not
  rounded to binary64), so order comparisons agree with the program
  whenever the compared doubles are distinct; rationals are always built
  with `mkRat` over integer arithmetic.
* Network calls (`requests.get` wrappers) are modelled as oracle functions
  passed in as parameters; the list of issued requests is returned
  alongside the result so that "no call is made" is a provable statement.
* Python dicts coming from JSON are modelled as structures whose fields are
  `Option`-valued where the code accesses them with `.get(key, default)`;
  a chain `d.get(a, {}).get(b, default)` that involves no list indexing is
  collapsed into a single `Option` field (the two missing-key cases are
  observationally identical).
* Python exceptions that the code can actually raise in the modelled
  fragment (`IndexError` from `[0]`/`[-1]` on an empty list,
  `UnboundLocalError` from reading an unassigned local, and the
  `ValueError` CPython raises when `int` is applied to a string of more
  than 4300 digits) are modelled with `Except PyErr`.
-/

/-- Python exceptions reachable in the modelled code paths. -/
inductive PyErr where
  | indexError
  | unboundLocalError
  | valueError
deriving DecidableEq

/-! ## Character classes (ASCII fragment of the `re` classes) -/

/-- Python regex `\s` (ASCII part): space, tab, newline, carriage return,
vertical tab, form feed. -/
def pyWs (c : Char) : Bool :=
  c = ' ' || c = '\t' || c = '\n' || c = '\r' || c = '\x0b' || c = '\x0c'

/-- The class `[A-Za-z]`. -/
def asciiLetter (c : Char) : Bool :=
  ('A' ≤ c && c ≤ 'Z') || ('a' ≤ c && c ≤ 'z')

/-- Python regex `\d` (ASCII part). -/
def asciiDigit (c : Char) : Bool := '0' ≤ c && c ≤ '9'

/-- Python regex `\w` (ASCII part): letters, digits, underscore. -/
def wordChar (c : Char) : Bool := asciiLetter c || asciiDigit c || c = '_'

/-- The class `[A-Za-z\s]` used by the origin/destination capture groups. -/
def letterOrWs (c : Char) : Bool := asciiLetter c || pyWs c

/-! ## Python string primitives over `List Char` -/

/-- Lower-case a character sequence (`str.lower`, ASCII fragment). -/
def lowerL (cs : List Char) : List Char := cs.map Char.toLower

/-- Lower-case a string (`str.lower`). -/
def pyLower (s : String) : String := String.mk (lowerL s.data)

/-- Number of leading characters satisfying `p`. -/
def countLeading (p : Char → Bool) : List Char → Nat
  | [] => 0
  | c :: cs => if p c then countLeading p cs + 1 else 0

/-- Match a literal character sequence at the start, returning the rest. -/
def stripLit : List Char → List Char → Option (List Char)
  | [], cs => some cs
  | _ :: _, [] => none
  | p :: ps, c :: cs => if c = p then stripLit ps cs else none

/-- Case-insensitive variant of `stripLit` (for patterns compiled with
`re.IGNORECASE`). -/
def stripLitCI : List Char → List Char → Option (List Char)
  | [], cs => some cs
  | _ :: _, [] => none
  | p :: ps, c :: cs => if c.toLower = p.toLower then stripLitCI ps cs else none

/-- Does `pat` occur at the start of `cs`? -/
def startsWithL (pat cs : List Char) : Bool := (stripLit pat cs).isSome

/-- Python `needle in haystack` for strings (substring containment). -/
def containsSubL : List Char → List Char → Bool
  | pat, [] => startsWithL pat []
  | pat, cs@(_ :: t) => startsWithL pat cs || containsSubL pat t

/-- Python `str.strip()` (strip whitespace at both ends). -/
def pyStripL (cs : List Char) : List Char :=
  ((cs.dropWhile pyWs).reverse.dropWhile pyWs).reverse

/-- Python `str.split()` with no separator: split on whitespace runs,
dropping empty pieces. -/
def splitWsL : List Char → List Char → List (List Char)
  | [], acc => if acc.isEmpty then [] else [acc.reverse]
  | c :: cs, acc =>
    if pyWs c then
      if acc.isEmpty then splitWsL cs [] else acc.reverse :: splitWsL cs []
    else splitWsL cs (c :: acc)

/-- Python `str.split()` on a string. -/
def pySplitWs (s : String) : List String :=
  (splitWsL s.data []).map String.mk

/-- Python `str.split(sep)` for a one-character separator: split at every
occurrence, keeping empty pieces. -/
def splitCharL (sep : Char) : List Char → List Char → List (List Char)
  | [], acc => [acc.reverse]
  | c :: cs, acc =>
    if c = sep then acc.reverse :: splitCharL sep cs [] else splitCharL sep cs (c :: acc)

/-- Python `str.replace(pat, repl)` (all non-overlapping occurrences, left
to right); `fuel` bounds the recursion and is set to the input length. -/
def replaceAllAux (pat repl : List Char) : Nat → List Char → List Char
  | _, [] => []
  | 0, cs => cs
  | fuel + 1, c :: cs =>
    if !pat.isEmpty && startsWithL pat (c :: cs) then
      repl ++ replaceAllAux pat repl fuel (List.drop (pat.length - 1) cs)
    else
      c :: replaceAllAux pat repl fuel cs

/-- Python `str.replace(pat, repl)` on strings. -/
def pyReplace (s pat repl : String) : String :=
  String.mk (replaceAllAux pat.data repl.data s.data.length s.data)

/-- Python `str.isupper()` (ASCII fragment): at least one cased character
and no lower-case character. -/
def pyIsUpper (cs : List Char) : Bool :=
  (cs.any fun c => c.isUpper || c.isLower) && (cs.all fun c => !c.isLower)

/-- Digits to the number they denote (`int` applied to a `\d+` capture). -/
def digitsToNat (cs : List Char) : Nat :=
  cs.foldl (fun n c => n * 10 + (c.toNat - '0'.toNat)) 0

/-- Zero-padded two-digit decimal rendering (`"{:02d}".format`). -/
def pad2 (n : Nat) : String :=
  if n < 10 then "0" ++ toString n else toString n

/-- Truthiness of an optional string (Python `if x:` with `x` a string or
`None`: `None` and `""` are falsy). -/
def truthyStr : Option String → Bool
  | none => false
  | some s => !(s == "")

/-! ## Backtracking helpers for the regex matchers

`tryDesc f n` tries `f n, f (n-1), …, f 1` and returns the first success:
the greedy order in which a backtracking engine retries the length of a
`+` repetition.  `tryAsc f bound` tries `f 1, …, f bound`: the lazy order
for a `+?` repetition. -/

def tryDesc (f : Nat → Option α) : Nat → Option α
  | 0 => none
  | n + 1 => (f (n + 1)).orElse fun _ => tryDesc f n

def tryAscAux (f : Nat → Option α) : Nat → Nat → Option α
  | _, 0 => none
  | i, r + 1 => (f i).orElse fun _ => tryAscAux f (i + 1) r

def tryAsc (f : Nat → Option α) (bound : Nat) : Option α := tryAscAux f 1 bound

/-- Leftmost-match search: `re.search` tries the pattern at every start
position from the left and returns the first position with a match. -/
def pySearch (f : List Char → Option α) : List Char → Option α
  | [] => f []
  | cs@(_ :: t) => (f cs).orElse fun _ => pySearch f t

/-! ## The regex matchers of FlightAgent.extract_flight_details

Each matcher implements one of the source's `re.search` patterns at a fixed
start position, following the backtracking engine's preference order
(greedy `+` longest-first, lazy `+?` shortest-first, alternatives in
written order).  Where a `\s+` is followed by an atom that cannot match a
whitespace character, the greedy run is forced to its maximal length and is
taken directly.  `pySearch` supplies the leftmost-position semantics. -/

/-- Pattern `from\s+([A-Za-z\s]+?)\s+to` at a position; returns the capture. -/
def matchOriginAt (cs : List Char) : Option (List Char) :=
  match stripLit "from".data cs with
  | none => none
  | some cs1 =>
    let wmax := countLeading pyWs cs1
    tryDesc (fun w =>
      let rest := cs1.drop w
      let lmax := countLeading letterOrWs rest
      tryAsc (fun l =>
        let after := rest.drop l
        let u := countLeading pyWs after
        if 1 ≤ u && startsWithL "to".data (after.drop u) then
          some (rest.take l)
        else none) lmax) wmax

/-- Pattern `to\s+([A-Za-z\s]+?)(?:\s|\.|$)` at a position; returns the
capture. -/
def matchDestAt (cs : List Char) : Option (List Char) :=
  match stripLit "to".data cs with
  | none => none
  | some cs1 =>
    let wmax := countLeading pyWs cs1
    tryDesc (fun w =>
      let rest := cs1.drop w
      let lmax := countLeading letterOrWs rest
      tryAsc (fun l =>
        let ok := match rest.drop l with
          | [] => true
          | c :: _ => pyWs c || c = '.'
        if ok then some (rest.take l) else none) lmax) wmax

/-- Optional ordinal suffix `(?:st|nd|rd|th)?` (case-insensitive). -/
def stripOrdSuffix : List Char → Option (List Char)
  | a :: b :: rest =>
    let p := [a.toLower, b.toLower]
    if p = "st".data || p = "nd".data || p = "rd".data || p = "th".data then
      some rest
    else none
  | _ => none

/-- The middle `\s+to\s+` of the date patterns (case-insensitive `to`). -/
def dateToSep (cs : List Char) : Option (List Char) :=
  let u := countLeading pyWs cs
  if u = 0 then none
  else
    match stripLitCI "to".data (cs.drop u) with
    | none => none
    | some cs2 =>
      let v := countLeading pyWs cs2
      if v = 0 then none else some (cs2.drop v)

/-- Core date pattern
`(\w+)\s+(\d+)(?:st|nd|rd|th)?\s+to\s+(\w+)\s+(\d+)(?:st|nd|rd|th)?`
(case-insensitive) at a position; returns the four captures.  All the
repetitions here are forced to maximal runs because each is followed by an
atom disjoint from its class; when the first ordinal suffix is present,
skipping it always fails at the following `\s+` (the suffix starts with a
letter), so the optional group can be committed. -/
def matchDateCoreAt (cs : List Char) : Option (List Char × List Char × List Char × List Char) :=
  let m1 := countLeading wordChar cs
  if m1 = 0 then none
  else
    let g1 := cs.take m1
    let cs1 := cs.drop m1
    let w1 := countLeading pyWs cs1
    if w1 = 0 then none
    else
      let cs2 := cs1.drop w1
      let m2 := countLeading asciiDigit cs2
      if m2 = 0 then none
      else
        let g2 := cs2.take m2
        let cs3 := cs2.drop m2
        let cs4? := match stripOrdSuffix cs3 with
          | some cs3' => dateToSep cs3'
          | none => dateToSep cs3
        match cs4? with
        | none => none
        | some cs4 =>
          let m3 := countLeading wordChar cs4
          if m3 = 0 then none
          else
            let g3 := cs4.take m3
            let cs5 := cs4.drop m3
            let w2 := countLeading pyWs cs5
            if w2 = 0 then none
            else
              let cs6 := cs5.drop w2
              let m4 := countLeading asciiDigit cs6
              if m4 = 0 then none
              else some (g1, g2, g3, cs6.take m4)

/-- Pattern `from\s+(\w+)\s+(\d+)(?:st|nd|rd|th)?\s+to\s+(\w+)\s+(\d+)(?:st|nd|rd|th)?`
(case-insensitive) at a position. -/
def matchDate1At (cs : List Char) : Option (List Char × List Char × List Char × List Char) :=
  match stripLitCI "from".data cs with
  | none => none
  | some cs0 =>
    let w := countLeading pyWs cs0
    if w = 0 then none else matchDateCoreAt (cs0.drop w)

/-- Pattern `budget\s+(?:is\s+|of\s+)?[$]?(\d+)` at a position; returns the
capture.  The alternatives `is\s+`/`of\s+` are committed in written order:
if one matches, the following `[$]?(\d+)` cannot match at the uncommitted
position (it would have to match a letter). -/
def matchBudgetAt (cs : List Char) : Option (List Char) :=
  match stripLit "budget".data cs with
  | none => none
  | some cs1 =>
    let w := countLeading pyWs cs1
    if w = 0 then none
    else
      let cs2 := cs1.drop w
      let branch := fun (kw : List Char) =>
        match stripLit kw cs2 with
        | none => none
        | some csk =>
          let u := countLeading pyWs csk
          if u = 0 then none else some (csk.drop u)
      let cs3 := match branch "is".data with
        | some r => r
        | none =>
          match branch "of".data with
          | some r => r
          | none => cs2
      let cs4 := match cs3 with
        | '$' :: rest => rest
        | _ => cs3
      let m := countLeading asciiDigit cs4
      if m = 0 then none else some (cs4.take m)

/-- Pattern `(\d+)\s+(?:people|persons|passengers)` at a position; returns
the capture. -/
def matchPeopleAt (cs : List Char) : Option (List Char) :=
  let m := countLeading asciiDigit cs
  if m = 0 then none
  else
    let g := cs.take m
    let rest := cs.drop m
    let w := countLeading pyWs rest
    if w = 0 then none
    else
      let rest2 := rest.drop w
      if startsWithL "people".data rest2 || startsWithL "persons".data rest2
          || startsWithL "passengers".data rest2 then
        some g
      else none

/-! ## Month parsing (datetime.strptime with %B, then %b) -/

/-- Full month names, as matched case-insensitively by `strptime(_, "%B")`. -/
def monthsFull : List (String × Nat) :=
  [("january", 1), ("february", 2), ("march", 3), ("april", 4), ("may", 5),
   ("june", 6), ("july", 7), ("august", 8), ("september", 9), ("october", 10),
   ("november", 11), ("december", 12)]

/-- Abbreviated month names, as matched by `strptime(_, "%b")`. -/
def monthsAbbr : List (String × Nat) :=
  [("jan", 1), ("feb", 2), ("mar", 3), ("apr", 4), ("may", 5), ("jun", 6),
   ("jul", 7), ("aug", 8), ("sep", 9), ("oct", 10), ("nov", 11), ("dec", 12)]

/-- Month-number extraction: `strptime(w, "%B")` and on failure
`strptime(w, "%b")`, both requiring the whole word to be consumed. -/
def monthOf (w : List Char) : Option Nat :=
  let lw := String.mk (lowerL w)
  (List.lookup lw monthsFull).orElse fun _ => List.lookup lw monthsAbbr

/-- Date rendering `f"{year}-{month:02d}-{day:02d}"`. -/
def fmtDate (year month day : Nat) : String :=
  toString year ++ "-" ++ pad2 month ++ "-" ++ pad2 day

/-! ## Python floats

A Python float is a binary64 value: a finite number, one of the two
infinities, or NaN.  The finite case keeps the exact rational value. -/

/-- A Python float value. -/
inductive PyFloat where
  | finite (q : ℚ)
  | pinf
  | ninf
  | nan
deriving DecidableEq

/-- Python `<` on floats: every comparison involving NaN is false. -/
def ltF : PyFloat → PyFloat → Bool
  | .nan, _ => false
  | _, .nan => false
  | .ninf, .ninf => false
  | .ninf, _ => true
  | _, .ninf => false
  | .finite a, .finite b => a < b
  | .finite _, .pinf => true
  | .pinf, _ => false

/-- Python `<=` on floats: every comparison involving NaN is false. -/
def leF : PyFloat → PyFloat → Bool
  | .nan, _ => false
  | _, .nan => false
  | .ninf, _ => true
  | _, .ninf => false
  | .finite a, .finite b => a ≤ b
  | .finite _, .pinf => true
  | .pinf, .pinf => true
  | .pinf, _ => false

/-- Python truthiness of a float: only `0.0` is falsy (`bool(nan)` is
true). -/
def truthyF : PyFloat → Bool
  | .finite q => q ≠ 0
  | _ => true

/-- Multiplication by the literal `0.4`, as used for the flight budget:
exact on finite values (`0.4 * 500` is exactly `200.0` in binary64 as
well), and sign-preserving on the non-finite values. -/
def mul04f : PyFloat → PyFloat
  | .finite q => .finite (mkRat (2 * q.num) (5 * q.den))
  | .pinf => .pinf
  | .ninf => .ninf
  | .nan => .nan

/-- The magnitude at which `strtod` overflows to infinity: the midpoint
between the largest finite double `(2 - 2^-52)·2^1023` and `2^1024`
(ties round to the even `2^1024`, which is out of range). -/
def floatOverflowBound : ℚ := mkRat ((2 ^ 1024 - 2 ^ 970 : Nat) : Int) 1

/-- Negated overflow bound. -/
def floatUnderflowBound : ℚ := mkRat (-((2 ^ 1024 - 2 ^ 970 : Nat) : Int)) 1

/-- Scan a PEP-515 digit group: the maximal run of digits and
underscores; valid only when every underscore sits between two digits.
Returns the digits with underscores removed, and the rest of the input;
`none` models the `ValueError` for a misplaced underscore.  An empty
group is valid (the caller decides whether digits are required). -/
def hasDoubleUnderscore : List Char → Bool
  | '_' :: '_' :: _ => true
  | _ :: t => hasDoubleUnderscore t
  | [] => false

def takeDigitGroup (cs : List Char) : Option (List Char × List Char) :=
  let run := cs.takeWhile fun c => asciiDigit c || c = '_'
  let rest := cs.dropWhile fun c => asciiDigit c || c = '_'
  if run.head? = some '_' || run.getLast? = some '_' || hasDoubleUnderscore run then
    none
  else
    some (run.filter (fun c => c ≠ '_'), rest)

/-- Python `float` applied to a string: optional surrounding whitespace
and sign, then `inf`/`infinity`/`nan` (case-insensitive) or a decimal
form `digits [. digits] [e|E [+|-] digits]` with PEP-515 underscores,
evaluated exactly and mapped to the matching infinity at or beyond the
binary64 overflow threshold.  `none` models `ValueError`. -/
def parseFloat (cs0 : List Char) : Option PyFloat :=
  let cs := pyStripL cs0
  let sgnCs : Bool × List Char := match cs with
    | '+' :: t => (false, t)
    | '-' :: t => (true, t)
    | t => (false, t)
  let neg := sgnCs.1
  let cs1 := sgnCs.2
  if lowerL cs1 = "infinity".data || lowerL cs1 = "inf".data then
    some (if neg then .ninf else .pinf)
  else if lowerL cs1 = "nan".data then some .nan
  else
    match takeDigitGroup cs1 with
    | none => none
    | some (intDigits, cs2) =>
      let fracParse : Option (List Char × List Char) := match cs2 with
        | '.' :: t => takeDigitGroup t
        | t => some ([], t)
      match fracParse with
      | none => none
      | some (fracDigits, cs3) =>
        if intDigits.isEmpty && fracDigits.isEmpty then none
        else
          let mantNum : Int :=
            (if neg then -1 else 1) * (digitsToNat (intDigits ++ fracDigits) : Int)
          let mantDen : Nat := 10 ^ fracDigits.length
          let withExp : Option ℚ := match cs3 with
            | [] => some (mkRat mantNum mantDen)
            | e :: t =>
              if e = 'e' || e = 'E' then
                let esgnT : Bool × List Char := match t with
                  | '+' :: r => (false, r)
                  | '-' :: r => (true, r)
                  | r => (false, r)
                match takeDigitGroup esgnT.2 with
                | none => none
                | some (expDigits, rest) =>
                  if expDigits.isEmpty || !rest.isEmpty then none
                  else
                    let ex := digitsToNat expDigits
                    if esgnT.1 then some (mkRat mantNum (mantDen * 10 ^ ex))
                    else some (mkRat (mantNum * ((10 ^ ex : Nat) : Int)) mantDen)
              else none
          match withExp with
          | none => none
          | some q =>
            if floatOverflowBound ≤ q then some .pinf
            else if q ≤ floatUnderflowBound then some .ninf
            else some (.finite q)

/-- Python `int` applied to a `\d+` capture: CPython (3.8.14+/3.9.14+/
3.10.7+/3.11+) raises `ValueError` when the digit string is longer than
the default integer-string-conversion limit of 4300 digits. -/
def pyIntDigits (g : List Char) : Except PyErr Nat :=
  if g.length > 4300 then .error .valueError else .ok (digitsToNat g)

/-! ## FlightAgent.extract_flight_details -/

/-- The result dict of `extract_flight_details`.  `budget` and
`flight_budget` are Python floats. -/
structure TripDetails where
  origin : String
  destination : String
  departure_date : Option String
  return_date : Option String
  budget : Option PyFloat
  passengers : Nat
  flight_budget : Option PyFloat
deriving DecidableEq

/-- The date branch of extract_flight_details (flight_agent.py:434-445):
given the winning date match (if any), build the two formatted dates.  The
two `int()` calls on the day captures (line 442-443) can raise the
integer-conversion `ValueError`, in the source's order: first day, then
second day. -/
def datesOf (current_year : Nat)
    (dm : Option (List Char × List Char × List Char × List Char)) :
    Except PyErr (Option String × Option String) :=
  match dm with
  | none => .ok (none, none)
  | some (g1, g2, g3, g4) =>
    match monthOf g1, monthOf g3 with
    | some dmo, some rmo =>
      match pyIntDigits g2 with
      | .error e => .error e
      | .ok day1 =>
        match pyIntDigits g4 with
        | .error e => .error e
        | .ok day2 =>
          .ok (some (fmtDate current_year dmo day1),
               some (fmtDate current_year rmo day2))
    | _, _ => .ok (none, none)

/-- The passengers branch of extract_flight_details
(flight_agent.py:446-447): `int()` of the capture (which can raise the
integer-conversion `ValueError`), default 1. -/
def passengersOf : Option (List Char) → Except PyErr Nat
  | some g => pyIntDigits g
  | none => .ok 1

/-- FlightAgent.extract_flight_details (flight_agent.py:402-456), with the
current calendar year as an explicit parameter.  The `int()` calls on the
day captures (line 442-443) and the passenger capture (line 446) can
raise CPython's integer-conversion `ValueError`, in the source's
evaluation order: first day, second day, then passengers.  `budget` is
`float()` of a digit capture (never an error, possibly `inf`), and
`flight_budget` is `0.4 * budget` when `budget` is truthy. -/
def extract_flight_details (current_year : Nat) (query : String) :
    Except PyErr TripDetails :=
  let cs := query.data
  let origin := match pySearch matchOriginAt cs with
    | some g => String.mk (pyStripL g)
    | none => ""
  let destination := match pySearch matchDestAt cs with
    | some g => String.mk (pyStripL g)
    | none => ""
  let dm := (pySearch matchDate1At cs).orElse fun _ => pySearch matchDateCoreAt cs
  let datesE := datesOf current_year dm
  let budget : Option PyFloat := match pySearch matchBudgetAt cs with
    | some g => parseFloat g
    | none => none
  let passengersE := passengersOf (pySearch matchPeopleAt cs)
  match datesE with
  | .error e => .error e
  | .ok dates =>
    match passengersE with
    | .error e => .error e
    | .ok passengers =>
      .ok { origin := origin
            destination := destination
            departure_date := dates.1
            return_date := dates.2
            budget := budget
            passengers := passengers
            flight_budget := match budget with
              | some b => if truthyF b then some (mul04f b) else none
              | none => none }

/-! ## FlightAgent.get_sky_id_dynamic (flight_agent.py:363-400)

The agent's `sky_id_map` dict is modelled as an association list with
first-match lookup; a fresh binding (only ever inserted on a cache miss)
is prepended.  The Fly-Scraper airport search (`search_airport_code`,
flight_agent.py:327-361) is a network call wrapped in a blanket
`try/except` that returns the first hit's `skyId` or `None`; it is
modelled as an oracle `String → Option String`.  The run records the
result (`Except` because the name-variant construction can raise
`IndexError`), the updated map, and the list of queries sent to the
airport-search API. -/

/-- The mutable `sky_id_map` state. -/
abbrev SkyMap := List (String × String)

instance {ε α : Type} [DecidableEq ε] [DecidableEq α] : DecidableEq (Except ε α) := fun x y =>
  match x, y with
  | .ok a, .ok b =>
    if h : a = b then isTrue (by rw [h]) else isFalse (by intro hh; cases hh; exact h rfl)
  | .error a, .error b =>
    if h : a = b then isTrue (by rw [h]) else isFalse (by intro hh; cases hh; exact h rfl)
  | .ok _, .error _ => isFalse (by intro hh; cases hh)
  | .error _, .ok _ => isFalse (by intro hh; cases hh)

/-- Result of one `get_sky_id_dynamic` call: the returned value (or the
raised exception), the `sky_id_map` after the call, and the arguments of
the `search_airport_code` calls that were made. -/
structure SkyRun where
  result : Except PyErr (Option String)
  map : SkyMap
  calls : List String
deriving DecidableEq

/-- Truthiness of the value bound by `sky_id = self.search_airport_code(…)`
followed by `if sky_id:`: both `None` and `""` are falsy. -/
def truthyOpt : Option String → Option String
  | some s => if s = "" then none else some s
  | none => none

/-- The loop `for variation in variations: if variation != city: …`
(flight_agent.py:390-397).  `cl` is the lower-cased city used as cache
key; `acc` accumulates the search calls already made. -/
def tryVariations (m : SkyMap) (oracle : String → Option String) (city cl : String) :
    List String → List String → SkyRun
  | [], acc => ⟨.ok none, m, acc⟩
  | v :: rest, acc =>
    if v = city then tryVariations m oracle city cl rest acc
    else
      match truthyOpt (oracle v) with
      | some sky => ⟨.ok (some sky), (cl, sky) :: m, acc ++ [v]⟩
      | none => tryVariations m oracle city cl rest (acc ++ [v])

/-- The name variants of flight_agent.py:383-388.  Evaluating
`city.split()[0] if " " in city else city` raises `IndexError` when the
city contains a space but splits to nothing (a whitespace-only name);
that case is checked by the caller before this function is used. -/
def cityVariations (city : String) : List String :=
  [city,
   pyReplace city " " "",
   if city.data.contains ' ' then ((pySplitWs city).headD "") else city,
   pyReplace (pyReplace city "new york" "nyc") "los angeles" "la"]

/-- FlightAgent.get_sky_id_dynamic (flight_agent.py:363-400). -/
def get_sky_id_dynamic (m : SkyMap) (oracle : String → Option String) (city : String) :
    SkyRun :=
  let cl := pyLower city
  match List.lookup cl m with
  | some v => ⟨.ok (some v), m, []⟩
  | none =>
    match truthyOpt (oracle city) with
    | some sky => ⟨.ok (some sky), (cl, sky) :: m, [city]⟩
    | none =>
      if city.data.contains ' ' && (pySplitWs city).isEmpty then
        ⟨.error .indexError, m, [city]⟩
      else
        tryVariations m oracle city cl (cityVariations city) [city]

/-- FlightAgent._get_sky_id (flight_agent.py:320-325, likewise
main.py:43-45): the static lookup with the synthetic `<NAME>A` fallback. -/
def get_sky_id_static (m : SkyMap) (city : String) : String :=
  match List.lookup (pyLower city) m with
  | some v => v
  | none => String.mk (city.data.map Char.toUpper) ++ "A"

/-! ## FlightAgent._process_flight_results (flight_agent.py:518-618)

The JSON itinerary shape is modelled structurally.  The wrapper access
`api_response.get("data", {}).get("itineraries", [])` is collapsed: the
function takes the itinerary list directly.  Scalars appearing as prices
are strings or numbers (`PyScalar`). -/

/-- A JSON scalar as it appears in the `price.amount` field. -/
inductive PyScalar where
  | str (s : String)
  | num (q : ℚ)
deriving DecidableEq

/-- Python `float` applied to a price value; `none` models `ValueError` /
`TypeError`. -/
def pyFloat : PyScalar → Option PyFloat
  | .num q => some (.finite q)
  | .str s => parseFloat s.data

/-- One entry of a leg's `carriers.marketing` list. -/
structure Marketing where
  name : Option String
  flightNumber : Option String
deriving DecidableEq

/-- One itinerary leg.  `departureTime` collapses
`leg.get("departure", {}).get("time", "")`, and likewise `arrivalTime`. -/
structure Leg where
  marketing : Option (List Marketing)
  departureTime : Option String
  arrivalTime : Option String
  stopCount : Option Int
  durationInMinutes : Option Int
deriving DecidableEq

/-- One entry of `itinerary.pricing.pricingOptions`; `amount` collapses
`entry.get("price", {}).get("amount", "N/A")`. -/
structure PricingOption where
  amount : Option PyScalar
deriving DecidableEq

/-- One itinerary of the API response.  `pricingOptions` collapses
`itinerary.get("pricing", {}).get("pricingOptions", [{}])`: `none` models
the key being absent (default `[{}]`). -/
structure Itinerary where
  legs : List Leg
  pricingOptions : Option (List PricingOption)
  id : String
deriving DecidableEq

/-- Leg details as stored in the roundtrip record's `outbound`/`return`
sub-dicts. -/
structure LegInfo where
  airline : String
  flightNumber : String
  departureTime : String
  arrivalTime : String
  stops : Int
  duration : Int
deriving DecidableEq

/-- A processed flight dict appended to `processed_flights`. -/
inductive Offer where
  | oneWay (airline flightNumber : String) (price : PyScalar)
      (departureTime arrivalTime : String) (stops duration : Int)
      (itineraryId : String)
  | roundtrip (price : PyScalar) (outbound ret : LegInfo) (itineraryId : String)
deriving DecidableEq

/-- The `price` entry of a processed flight (`flight.get("price", 0)`;
both dict shapes always carry the key). -/
def Offer.price : Offer → PyScalar
  | .oneWay _ _ p _ _ _ _ _ => p
  | .roundtrip p _ _ _ => p

/-- The expression `leg.get("carriers", {}).get("marketing", [{}])[0]`:
indexing the default `[{}]` yields an empty marketing record, and indexing
an explicitly empty list raises `IndexError`. -/
def firstMarketing (l : Leg) : Except PyErr Marketing :=
  match l.marketing with
  | none => .ok ⟨none, none⟩
  | some [] => .error .indexError
  | some (mk :: _) => .ok mk

/-- The expression
`itinerary.get("pricing", {}).get("pricingOptions", [{}])[0]` followed by
`.get("price", {}).get("amount", "N/A")`. -/
def itineraryPrice (it : Itinerary) : Except PyErr PyScalar :=
  match it.pricingOptions with
  | none => .ok (.str "N/A")
  | some [] => .error .indexError
  | some (p :: _) => .ok (p.amount.getD (.str "N/A"))

/-- Leg details extraction shared by the roundtrip sub-records. -/
def legInfoOf (mk : Marketing) (l : Leg) : LegInfo :=
  ⟨mk.name.getD "Unknown Airline", mk.flightNumber.getD "",
   l.departureTime.getD "", l.arrivalTime.getD "",
   l.stopCount.getD 0, l.durationInMinutes.getD 0⟩

/-- The one-way flight dict built by the dedented block at
flight_agent.py:583-598. -/
def mkOneWay (mk : Marketing) (leg : Leg) (price : PyScalar) (iid : String) : Offer :=
  .oneWay (mk.name.getD "Unknown Airline") (mk.flightNumber.getD "") price
    (leg.departureTime.getD "") (leg.arrivalTime.getD "")
    (leg.stopCount.getD 0) (leg.durationInMinutes.getD 0) iid

/-- The normalization loop `for itinerary in itineraries[:10]`
(flight_agent.py:532-600), transcribed with the source's actual
indentation: the block from `carriers = leg.get(...)` (line 583) onward is
dedented out of the `else`, so it runs for every itinerary, rebuilding
`processed_flight` as a one-way dict from the local `leg` — which the
roundtrip branch never assigns.  `legVar` carries the loop-spanning `leg`
local (`none` = not yet assigned; reading it then raises
`UnboundLocalError`). -/
def normalizePass (rd : Option String) : List Itinerary → Option Leg → Except PyErr (List Offer)
  | [], _ => .ok []
  | it :: rest, legVar =>
    match it.legs with
    | [] => normalizePass rd rest legVar
    | l0 :: ltail =>
      match itineraryPrice it with
      | .error e => .error e
      | .ok price =>
        let branch : Except PyErr (Option Leg) :=
          match ltail, truthyStr rd with
          | [l1], true =>
            match firstMarketing l0 with
            | .error e => .error e
            | .ok mo =>
              match firstMarketing l1 with
              | .error e => .error e
              | .ok mr =>
                let _roundtripRecord :=
                  Offer.roundtrip price (legInfoOf mo l0) (legInfoOf mr l1) it.id
                .ok legVar
          | _, _ => .ok (some l0)
        match branch with
        | .error e => .error e
        | .ok legVar' =>
          match legVar' with
          | none => .error .unboundLocalError
          | some leg =>
            match firstMarketing leg with
            | .error e => .error e
            | .ok mk =>
              match normalizePass rd rest legVar' with
              | .error e => .error e
              | .ok out => .ok (mkOneWay mk leg price it.id :: out)

/-- The sort key `get_price_for_sorting` (flight_agent.py:603-607):
`float(flight.get("price", 0))`, with a parse failure mapped to
`float('inf')`.  A price string `"nan"` parses and yields a NaN key. -/
def priceKey (f : Offer) : PyFloat :=
  match pyFloat f.price with
  | some v => v
  | none => .pinf

/-- Non-decreasing order of two offers under the numeric sort key
(Python `<=` on the key floats; false on either side being NaN). -/
def offerLe (a b : Offer) : Prop := leF (priceKey a) (priceKey b) = true

instance : DecidableRel offerLe := fun a b =>
  inferInstanceAs (Decidable (leF (priceKey a) (priceKey b) = true))

/-- The placement relation of a stable comparison sort driven by Python
`<` on the keys: `a` may stay before `b` exactly when `key b < key a` is
false (equal keys keep input order). -/
def sortRel (a b : Offer) : Prop := ltF (priceKey b) (priceKey a) = false

instance : DecidableRel sortRel := fun a b =>
  inferInstanceAs (Decidable (ltF (priceKey b) (priceKey a) = false))

/-- Python's stable `list.sort(key=get_price_for_sorting)`, modelled by a
stable insertion sort over the `<`-driven placement relation.  When no
key is NaN, `<` on the keys is a strict weak order, a stable sort's
output is determined by the key order and the input order, and this is
that output.  With a NaN key the comparisons are not a total preorder and
CPython's result depends on Timsort's internals; the insertion order
below stands in for it, and the ordering claims proved further down are
either restricted to NaN-free keys or refuted by facts that hold for
every arrangement of the offers involved. -/
def sortOffers (l : List Offer) : List Offer := List.insertionSort sortRel l

/-- The dict returned by `_process_flight_results`. -/
structure ProcOutput where
  data : List Offer
  count : Nat
  message : Option String
  error : Option PyErr
deriving DecidableEq

/-- FlightAgent._process_flight_results (flight_agent.py:518-618).  The
blanket `except` converts any raised error into the
`{"data": [], "count": 0, "error": …}` dict (the exception text is kept as
the `PyErr` value). -/
def process_flight_results (itins : List Itinerary) (rd : Option String) : ProcOutput :=
  if itins.isEmpty then ⟨[], 0, some "No flights found", none⟩
  else
    match normalizePass rd (itins.take 10) none with
    | .error e => ⟨[], 0, none, some e⟩
    | .ok l => ⟨sortOffers l, l.length, none, none⟩

/-! ## FlightAgent.get_flights and get_flight_recommendations
(flight_agent.py:458-516, 620-653)

The flight-search HTTP call is modelled as an oracle from the request
parameters to the response's itinerary list; issued flight-search requests
are recorded so that "no flight search was made" is provable.  The two
`get_sky_id_dynamic` calls at flight_agent.py:462-463 sit outside the
`try` block, so an exception they raise propagates. -/

/-- The query parameters of the flight-search request
(flight_agent.py:481-493). -/
structure FlightReq where
  originSkyId : String
  destSkyId : String
  departureDate : String
  adults : Nat
  cabinClass : String
  currency : String
  sort : String
  returnDate : Option String
deriving DecidableEq

/-- The value returned by `get_flights`: either the `{"error": …}` dict of
the failed-resolution short-circuits, or the processed results. -/
inductive GFValue where
  | errorMsg (msg : String)
  | processed (p : ProcOutput)
deriving DecidableEq

/-- A `get_flights` run: returned value (or propagated exception), the
`sky_id_map` afterwards, and the flight-search requests issued. -/
structure GFRun where
  result : Except PyErr GFValue
  map : SkyMap
  flightCalls : List FlightReq
deriving DecidableEq

/-- FlightAgent.get_flights (flight_agent.py:458-516). -/
def get_flights (m : SkyMap) (aOracle : String → Option String)
    (fOracle : FlightReq → List Itinerary)
    (origin destination departure_date : String) (return_date : Option String)
    (passengers : Nat) : GFRun :=
  let r1 := get_sky_id_dynamic m aOracle origin
  match r1.result with
  | .error e => ⟨.error e, r1.map, []⟩
  | .ok oSky =>
    let r2 := get_sky_id_dynamic r1.map aOracle destination
    match r2.result with
    | .error e => ⟨.error e, r2.map, []⟩
    | .ok dSky =>
      match truthyOpt oSky with
      | none =>
        ⟨.ok (.errorMsg ("Could not find airport code for origin: " ++ origin)),
         r2.map, []⟩
      | some osky =>
        match truthyOpt dSky with
        | none =>
          ⟨.ok (.errorMsg ("Could not find airport code for destination: " ++ destination)),
           r2.map, []⟩
        | some dsky =>
          let req : FlightReq :=
            ⟨osky, dsky, departure_date, passengers, "economy", "USD", "price",
             if truthyStr return_date then return_date else none⟩
          let itins := fOracle req
          ⟨.ok (.processed (process_flight_results itins return_date)), r2.map, [req]⟩

/-- The value returned by `get_flight_recommendations`: the early
validation-failure dict `{"error": …, "details": details}`, or the
`get_flights` result merged with the `extracted` echo and (when the result
carries no `"error"` key) the `airport_codes` debug entry. -/
inductive RecValue where
  | missingInfo (details : TripDetails)
  | merged (result : GFValue) (extracted : TripDetails)
      (airport_codes : Option (Option String × Option String))
deriving DecidableEq

/-- Python `"error" in result` for the dict shapes `get_flights` returns. -/
def hasErrorKey : GFValue → Bool
  | .errorMsg _ => true
  | .processed p => p.error.isSome

/-- A `get_flight_recommendations` run. -/
structure RecRun where
  result : Except PyErr RecValue
  map : SkyMap
  flightCalls : List FlightReq
deriving DecidableEq

/-- FlightAgent.get_flight_recommendations (flight_agent.py:620-653), with
the current year a parameter of the extraction step.  An exception raised
by the extraction (the oversized-digit `ValueError`) propagates: nothing
in this function catches it. -/
def get_flight_recommendations (m : SkyMap) (aOracle : String → Option String)
    (fOracle : FlightReq → List Itinerary) (year : Nat) (query : String) : RecRun :=
  match extract_flight_details year query with
  | .error e => ⟨.error e, m, []⟩
  | .ok details =>
  if details.origin = "" || details.destination = ""
      || !(truthyStr details.departure_date) then
    ⟨.ok (.missingInfo details), m, []⟩
  else
    let r1 := get_sky_id_dynamic m aOracle details.origin
    match r1.result with
    | .error e => ⟨.error e, r1.map, []⟩
    | .ok oSky =>
      let r2 := get_sky_id_dynamic r1.map aOracle details.destination
      match r2.result with
      | .error e => ⟨.error e, r2.map, []⟩
      | .ok dSky =>
        let gf := get_flights r2.map aOracle fOracle details.origin
          details.destination (details.departure_date.getD "")
          details.return_date details.passengers
        match gf.result with
        | .error e => ⟨.error e, gf.map, gf.flightCalls⟩
        | .ok v =>
          ⟨.ok (.merged v details
              (if hasErrorKey v then none else some (oSky, dSky))),
           gf.map, gf.flightCalls⟩

/-! ## FreeAirportLookup (free_airport_lookup.py)

The airports.csv table is passed as a parameter (it is loaded once from
disk); geocoding and the GeoNames nearby-airport search are external
calls, so `find_airport_code` is modelled over their results: the geocoder
outcome and the distance-ordered candidate list that
`find_nearby_airports` returns (candidate records are built from the raw
GeoNames rows with `_extract_iata_code`, exactly as in
free_airport_lookup.py:125-140). -/

/-- A row of airports.csv as used by `_find_iata_in_csv`: the `name`,
`iata_code` and `municipality` columns (missing values are empty strings,
as the csv module produces). -/
structure CsvRow where
  name : String
  iata_code : String
  municipality : String
deriving DecidableEq

/-- An `alternateNames` entry of a raw GeoNames airport record. -/
structure AltName where
  lang : Option String
  name : Option String
deriving DecidableEq

/-- A raw GeoNames airport record (the fields `_extract_iata_code` and the
candidate construction read). -/
structure GeoRec where
  name : Option String
  alternateNames : List AltName
deriving DecidableEq

/-- The candidate record built in free_airport_lookup.py:129-136 (only the
fields the lookup loop reads). -/
structure Candidate where
  name : String
  iata_code : Option String
deriving DecidableEq

/-- FreeAirportLookup._extract_iata_code (free_airport_lookup.py:152-169):
read a 3-letter upper-case code from the parentheses of the display name
(`name.split("(")[-1].split(")")[0]`), else return the `name` entry of the
first alternate name tagged with `lang == "iata"` (which may itself be
absent, yielding `None`). -/
def extract_iata_code (a : GeoRec) : Option String :=
  let name := (a.name.getD "").data
  let fromName : Option String :=
    if containsSubL "(".data name && containsSubL ")".data name then
      let seg := (splitCharL '(' name []).getLastD []
      let iata := ((splitCharL ')' seg []).headD [])
      if iata.length = 3 && pyIsUpper iata then some (String.mk iata) else none
    else none
  match fromName with
  | some c => some c
  | none =>
    match a.alternateNames.find? (fun alt => alt.lang == some "iata") with
    | some alt => alt.name
    | none => none

/-- Candidate construction (free_airport_lookup.py:129-136, restricted to
the fields the lookup reads). -/
def candidateOf (a : GeoRec) : Candidate :=
  ⟨a.name.getD "", extract_iata_code a⟩

/-- First row whose `name` equals the airport name (case-insensitively)
and whose `iata_code` is truthy — the first loop of `_find_iata_in_csv`
(free_airport_lookup.py:44-46). -/
def csvExactPass (airport_name : String) : List CsvRow → Option String
  | [] => none
  | row :: rest =>
    if lowerL row.name.data = lowerL airport_name.data && row.iata_code ≠ "" then
      some row.iata_code
    else csvExactPass airport_name rest

/-- First row whose `name` contains the airport name as a substring
(case-insensitively) with a truthy `iata_code` — the second loop
(free_airport_lookup.py:48-50). -/
def csvSubPass (airport_name : String) : List CsvRow → Option String
  | [] => none
  | row :: rest =>
    if containsSubL (lowerL airport_name.data) (lowerL row.name.data)
        && row.iata_code ≠ "" then
      some row.iata_code
    else csvSubPass airport_name rest

/-- First row with a truthy `municipality` containing the city name
(case-insensitively) and a truthy `iata_code` — the third loop
(free_airport_lookup.py:52-55). -/
def csvMuniPass (city : String) : List CsvRow → Option String
  | [] => none
  | row :: rest =>
    if row.municipality ≠ ""
        && containsSubL (lowerL city.data) (lowerL row.municipality.data)
        && row.iata_code ≠ "" then
      some row.iata_code
    else csvMuniPass city rest

/-- FreeAirportLookup._find_iata_in_csv (free_airport_lookup.py:39-56).
An empty table models both a missing file and an unreadable one
(`self.airports_data` falsy → `None`). -/
def find_iata_in_csv (table : List CsvRow) (airport_name : String)
    (city : Option String) : Option String :=
  if table.isEmpty then none
  else
    match csvExactPass airport_name table with
    | some c => some c
    | none =>
      match csvSubPass airport_name table with
      | some c => some c
      | none =>
        match city with
        | some ct => csvMuniPass ct table
        | none => none

/-- The candidate loop of `find_airport_code`
(free_airport_lookup.py:190-198): for each candidate in order, a truthy
extracted code wins immediately; otherwise the CSV lookup for that
candidate's name is tried before moving on. -/
def findAirportCodeLoop (table : List CsvRow) (city : String) :
    List Candidate → Option String
  | [] => none
  | a :: rest =>
    match a.iata_code with
    | some c =>
      if c = "" then
        match find_iata_in_csv table a.name (some city) with
        | some fromCsv => some fromCsv
        | none => findAirportCodeLoop table city rest
      else some c
    | none =>
      match find_iata_in_csv table a.name (some city) with
      | some fromCsv => some fromCsv
      | none => findAirportCodeLoop table city rest

/-- FreeAirportLookup.find_airport_code (free_airport_lookup.py:171-201)
over the outcomes of the external services: `geocoded` is whether
`geocode_city` produced coordinates, `raws` the distance-ordered rows of
the GeoNames response (an empty list models both "no airports" and a
failed call). -/
def find_airport_code (table : List CsvRow) (city : String)
    (geocoded : Bool) (raws : List GeoRec) : Option String :=
  if !geocoded then none
  else
    let airports := raws.map candidateOf
    if airports.isEmpty then none
    else findAirportCodeLoop table city airports

/-- Modelled from the spec (section 4.2, step 3): the two-phase reading
the claim asserts — first scan every candidate for an extracted code, and
only if none yields one, fall back to the CSV lookup, candidate by
candidate.  Stated for comparison with `find_airport_code`. -/
def find_airport_code_claim (table : List CsvRow) (city : String)
    (geocoded : Bool) (raws : List GeoRec) : Option String :=
  if !geocoded then none
  else
    let airports := raws.map candidateOf
    if airports.isEmpty then none
    else
      match airports.findSome? (fun a => truthyOpt a.iata_code) with
      | some c => some c
      | none => airports.findSome? (fun a => find_iata_in_csv table a.name (some city))

/-! ## Lemmas about get_sky_id_dynamic -/

/-- Outcomes of the variation loop: either every tried variation failed
(map untouched, `None` returned) or some variation succeeded and exactly
the one binding was added. -/
lemma tryVariations_cases (m : SkyMap) (oracle : String → Option String)
    (city cl : String) :
    ∀ (vs acc : List String),
      ((tryVariations m oracle city cl vs acc).result = .ok none ∧
        (tryVariations m oracle city cl vs acc).map = m) ∨
      (∃ sky, (tryVariations m oracle city cl vs acc).result = .ok (some sky) ∧
        (tryVariations m oracle city cl vs acc).map = (cl, sky) :: m) := by
  intro vs
  induction vs with
  | nil => exact fun _ => .inl ⟨rfl, rfl⟩
  | cons v rest ih =>
    intro acc
    show _ ∨ _
    unfold tryVariations
    by_cases hv : v = city
    · simp only [if_pos hv]
      exact ih _
    · simp only [if_neg hv]
      cases h : truthyOpt (oracle v) with
      | some sky => exact .inr ⟨sky, rfl, rfl⟩
      | none => exact ih _

/-- When the oracle is truthy on no tried variation, the loop returns
`None`, leaves the map alone, and only appends to the call list. -/
lemma tryVariations_fail (m : SkyMap) (oracle : String → Option String)
    (city cl : String) :
    ∀ (vs acc : List String), (∀ v ∈ vs, truthyOpt (oracle v) = none) →
      (tryVariations m oracle city cl vs acc).result = .ok none ∧
      (tryVariations m oracle city cl vs acc).map = m ∧
      ∃ t, (tryVariations m oracle city cl vs acc).calls = acc ++ t := by
  intro vs
  induction vs with
  | nil => exact fun acc _ => ⟨rfl, rfl, [], by simp [tryVariations]⟩
  | cons v rest ih =>
    intro acc hf
    unfold tryVariations
    by_cases hv : v = city
    · simp only [if_pos hv]
      exact ih _ fun u hu => hf u (List.mem_cons_of_mem _ hu)
    · simp only [if_neg hv, hf v (List.mem_cons_self _ _)]
      obtain ⟨h1, h2, t, h3⟩ := ih (acc ++ [v]) fun u hu => hf u (List.mem_cons_of_mem _ hu)
      exact ⟨h1, h2, [v] ++ t, by simpa using h3⟩

/-- Outcomes of one `get_sky_id_dynamic` call: failure or an exception
leaves the map untouched; success either was a cache hit or added exactly
the binding for the lower-cased city. -/
lemma get_sky_id_dynamic_cases (m : SkyMap) (oracle : String → Option String)
    (city : String) :
    ((get_sky_id_dynamic m oracle city).result = .ok none ∧
      (get_sky_id_dynamic m oracle city).map = m) ∨
    (∃ sky, (get_sky_id_dynamic m oracle city).result = .ok (some sky) ∧
      ((get_sky_id_dynamic m oracle city).map = m ∧
          List.lookup (pyLower city) m = some sky ∨
        (get_sky_id_dynamic m oracle city).map = (pyLower city, sky) :: m)) ∨
    ((get_sky_id_dynamic m oracle city).result = .error .indexError ∧
      (get_sky_id_dynamic m oracle city).map = m) := by
  cases hl : List.lookup (pyLower city) m with
  | some v =>
    refine .inr (.inl ⟨v, ?_, .inl ⟨?_, rfl⟩⟩) <;> simp [get_sky_id_dynamic, hl]
  | none =>
    cases ho : truthyOpt (oracle city) with
    | some sky =>
      refine .inr (.inl ⟨sky, ?_, .inr ?_⟩) <;> simp [get_sky_id_dynamic, hl, ho]
    | none =>
      by_cases hc : (city.data.contains ' ' && (pySplitWs city).isEmpty) = true
      · have hc' : ' ' ∈ city.data ∧ pySplitWs city = [] := by simpa using hc
        refine .inr (.inr ⟨?_, ?_⟩) <;> simp [get_sky_id_dynamic, hl, ho, hc'.1, hc'.2]
      · have hc' : ¬(' ' ∈ city.data ∧ pySplitWs city = []) := by simpa using hc
        have hrw : get_sky_id_dynamic m oracle city =
            tryVariations m oracle city (pyLower city) (cityVariations city) [city] := by
          simp [get_sky_id_dynamic, hl, ho, hc']
        rw [hrw]
        rcases tryVariations_cases m oracle city (pyLower city) (cityVariations city) [city] with
          ⟨h1, h2⟩ | ⟨sky, h1, h2⟩
        · exact .inl ⟨h1, h2⟩
        · exact .inr (.inl ⟨sky, h1, .inr h2⟩)

/-- Evaluation of a cache hit. -/
lemma get_sky_id_dynamic_hit (m : SkyMap) (oracle : String → Option String)
    (city sky : String) (h : List.lookup (pyLower city) m = some sky) :
    get_sky_id_dynamic m oracle city = ⟨.ok (some sky), m, []⟩ := by
  simp [get_sky_id_dynamic, h]

/-- C6: resolving the same city name twice through `get_sky_id_dynamic`
yields the same outcome both times, and after a successful first
resolution the code is memoized (it is in the returned map under the
lower-cased city), so the second resolution is a pure cache lookup that
makes no `search_airport_code` call and leaves the map unchanged. -/
theorem resolve_twice_idempotent (m : SkyMap) (oracle : String → Option String)
    (city : String) :
    (get_sky_id_dynamic (get_sky_id_dynamic m oracle city).map oracle city).result =
      (get_sky_id_dynamic m oracle city).result ∧
    ∀ c, (get_sky_id_dynamic m oracle city).result = .ok (some c) →
      get_sky_id_dynamic (get_sky_id_dynamic m oracle city).map oracle city =
        ⟨.ok (some c), (get_sky_id_dynamic m oracle city).map, []⟩ := by
  rcases get_sky_id_dynamic_cases m oracle city with ⟨h1, h2⟩ | ⟨sky, h1, h2⟩ | ⟨h1, h2⟩
  · constructor
    · rw [h2]
    · intro c hc
      rw [h1] at hc
      simp at hc
  · have hlook : List.lookup (pyLower city) (get_sky_id_dynamic m oracle city).map =
        some sky := by
      rcases h2 with ⟨hm, hl⟩ | hm
      · rw [hm]; exact hl
      · rw [hm]; simp [List.lookup]
    have h2run := get_sky_id_dynamic_hit _ oracle city sky hlook
    constructor
    · rw [h2run, h1]
    · intro c hc
      rw [h1] at hc
      have hsc : sky = c := by simpa using hc
      subst hsc
      rw [h2run]
  · constructor
    · rw [h2]
    · intro c hc
      rw [h1] at hc
      simp at hc

/-- Witness for C6 at a concrete cached city. -/
theorem resolve_twice_idempotent_witness :
    get_sky_id_dynamic
        (get_sky_id_dynamic [("dallas", "DFWA")] (fun _ => none) "Dallas").map
        (fun _ => none) "Dallas" =
      ⟨.ok (some "DFWA"),
       (get_sky_id_dynamic [("dallas", "DFWA")] (fun _ => none) "Dallas").map, []⟩ :=
  (resolve_twice_idempotent [("dallas", "DFWA")] (fun _ => none) "Dallas").2 "DFWA" rfl

/-- C5 counterexample: it is not true that every cache-missed city on
which the airport search is truthy on no name (the original or any
variant) resolves to an explicit `None`: for a whitespace-only city name
containing a space, building the name variants raises `IndexError`
(`city.split()[0]` on an empty split, flight_agent.py:386). -/
theorem unresolved_city_claim_refuted :
    ¬ ∀ (m : SkyMap) (oracle : String → Option String) (city : String),
        List.lookup (pyLower city) m = none →
        truthyOpt (oracle city) = none →
        (∀ v ∈ cityVariations city, truthyOpt (oracle v) = none) →
        (get_sky_id_dynamic m oracle city).result = .ok none := by
  intro h
  have h2 := h [] (fun _ => none) " " rfl rfl (fun v _ => rfl)
  exact absurd h2 (by decide)

/-- C5 (amended): for every city name absent from the gazetteer map, with
the airport search truthy on no queried name, and which is not a
whitespace-only name containing a space, `get_sky_id_dynamic` returns an
explicit `None` — never a guessed or synthesized code. -/
theorem unresolved_city_returns_none (m : SkyMap) (oracle : String → Option String)
    (city : String)
    (hmiss : List.lookup (pyLower city) m = none)
    (hfail : truthyOpt (oracle city) = none)
    (hvar : ∀ v ∈ cityVariations city, truthyOpt (oracle v) = none)
    (hsafe : (city.data.contains ' ' && (pySplitWs city).isEmpty) = false) :
    (get_sky_id_dynamic m oracle city).result = .ok none := by
  have hc' : ¬(' ' ∈ city.data ∧ pySplitWs city = []) := by simpa using hsafe
  have hrw : get_sky_id_dynamic m oracle city =
      tryVariations m oracle city (pyLower city) (cityVariations city) [city] := by
    simp [get_sky_id_dynamic, hmiss, hfail, hc']
  rw [hrw]
  exact (tryVariations_fail m oracle city (pyLower city) (cityVariations city)
    [city] hvar).1

/-- Witness for the amended C5 at a concrete unknown city. -/
theorem unresolved_city_returns_none_witness :
    (get_sky_id_dynamic [] (fun _ => none) "Atlantis").result = .ok none :=
  unresolved_city_returns_none [] (fun _ => none) "Atlantis" rfl rfl
    (fun _ _ => rfl) rfl

/-- C10 counterexample: the claimed failure behaviour ("returns None and
leaves the map unchanged") fails as stated, again at a whitespace-only
city name, where the call raises `IndexError` instead of returning
`None`. -/
theorem failure_frame_claim_refuted :
    ¬ ∀ (m : SkyMap) (oracle : String → Option String) (city : String),
        List.lookup (pyLower city) m = none →
        truthyOpt (oracle city) = none →
        (∀ v ∈ cityVariations city, truthyOpt (oracle v) = none) →
        (get_sky_id_dynamic m oracle city).result = .ok none ∧
        (get_sky_id_dynamic m oracle city).map = m := by
  intro h
  have h2 := (h [] (fun _ => none) "  " rfl rfl (fun v _ => rfl)).1
  exact absurd h2 (by decide)

/-- C10 (amended): `get_sky_id_dynamic` mutates the map only on a
successful lookup — on any non-successful outcome (explicit `None` or the
`IndexError` of the degenerate whitespace name) the map is exactly
unchanged; and on a cache miss where the search is truthy on no queried
name and the city is not a whitespace-only name containing a space, the
call returns `None`, makes at least one search call, leaves the map
unchanged, and a repeated call runs the identical dynamic lookup again
(failures are never cached). -/
theorem failure_frame (m : SkyMap) (oracle : String → Option String) (city : String) :
    ((∀ c, (get_sky_id_dynamic m oracle city).result ≠ .ok (some c)) →
      (get_sky_id_dynamic m oracle city).map = m) ∧
    (List.lookup (pyLower city) m = none →
      truthyOpt (oracle city) = none →
      (∀ v ∈ cityVariations city, truthyOpt (oracle v) = none) →
      (city.data.contains ' ' && (pySplitWs city).isEmpty) = false →
      (get_sky_id_dynamic m oracle city).result = .ok none ∧
      (get_sky_id_dynamic m oracle city).map = m ∧
      (get_sky_id_dynamic m oracle city).calls ≠ [] ∧
      get_sky_id_dynamic (get_sky_id_dynamic m oracle city).map oracle city =
        get_sky_id_dynamic m oracle city) := by
  constructor
  · intro hnc
    rcases get_sky_id_dynamic_cases m oracle city with ⟨h1, h2⟩ | ⟨sky, h1, h2⟩ | ⟨h1, h2⟩
    · exact h2
    · exact absurd h1 (hnc sky)
    · exact h2
  · intro hmiss hfail hvar hsafe
    have hc' : ¬(' ' ∈ city.data ∧ pySplitWs city = []) := by simpa using hsafe
    have hrw : get_sky_id_dynamic m oracle city =
        tryVariations m oracle city (pyLower city) (cityVariations city) [city] := by
      simp [get_sky_id_dynamic, hmiss, hfail, hc']
    obtain ⟨h1, h2, t, h3⟩ := tryVariations_fail m oracle city (pyLower city)
      (cityVariations city) [city] hvar
    rw [hrw]
    refine ⟨h1, h2, ?_, ?_⟩
    · rw [h3]; simp
    · rw [h2]; exact hrw

/-- Witness for the amended C10 at a concrete unknown city. -/
theorem failure_frame_witness :
    (get_sky_id_dynamic [] (fun _ => none) "Gotham").result = .ok none ∧
    (get_sky_id_dynamic [] (fun _ => none) "Gotham").map = [] ∧
    (get_sky_id_dynamic [] (fun _ => none) "Gotham").calls ≠ [] ∧
    get_sky_id_dynamic (get_sky_id_dynamic [] (fun _ => none) "Gotham").map
        (fun _ => none) "Gotham" =
      get_sky_id_dynamic [] (fun _ => none) "Gotham" :=
  (failure_frame [] (fun _ => none) "Gotham").2 rfl rfl (fun _ _ => rfl) rfl

/-- C4: the flight-search request is issued only when the extracted
origin, destination and departure date are all non-empty; when any is
missing, `get_flight_recommendations` returns the
`{"error": …, "details": …}` object directly, with no flight-search call
(and no further processing — there is no retry). -/
theorem missing_fields_no_flight_search (m : SkyMap) (aOracle : String → Option String)
    (fOracle : FlightReq → List Itinerary) (year : Nat) (query : String) :
    (∀ d, extract_flight_details year query = .ok d →
      (d.origin = "" ∨ d.destination = "" ∨ truthyStr d.departure_date = false) →
      get_flight_recommendations m aOracle fOracle year query =
        ⟨.ok (.missingInfo d), m, []⟩) ∧
    ((get_flight_recommendations m aOracle fOracle year query).flightCalls ≠ [] →
      ∃ d, extract_flight_details year query = .ok d ∧
        d.origin ≠ "" ∧ d.destination ≠ "" ∧
        truthyStr d.departure_date = true) := by
  have key : ∀ d, extract_flight_details year query = .ok d →
      (d.origin = "" ∨ d.destination = "" ∨ truthyStr d.departure_date = false) →
      get_flight_recommendations m aOracle fOracle year query =
        ⟨.ok (.missingInfo d), m, []⟩ := by
    intro d hd h
    simp only [get_flight_recommendations, hd]
    split
    · rfl
    · rename_i hneg
      exfalso
      apply hneg
      rcases h with h | h | h <;> simp [h]
  refine ⟨key, ?_⟩
  intro hcalls
  cases hex : extract_flight_details year query with
  | error e =>
    exfalso
    simp [get_flight_recommendations, hex] at hcalls
  | ok d =>
    refine ⟨d, rfl, ?_, ?_, ?_⟩
    · by_contra h0
      rw [key d hex (.inl h0)] at hcalls
      simp at hcalls
    · by_contra h0
      rw [key d hex (.inr (.inl h0))] at hcalls
      simp at hcalls
    · by_contra h0
      rw [Bool.not_eq_true] at h0
      rw [key d hex (.inr (.inr h0))] at hcalls
      simp at hcalls

/-- Witness for C4 at a query with no extractable fields. -/
theorem missing_fields_no_flight_search_witness :
    get_flight_recommendations [] (fun _ => none) (fun _ => []) 2025 "hello" =
      ⟨.ok (.missingInfo
        { origin := "", destination := "", departure_date := none,
          return_date := none, budget := none, passengers := 1,
          flight_budget := none }), [], []⟩ :=
  (missing_fields_no_flight_search [] (fun _ => none) (fun _ => []) 2025 "hello").1
    { origin := "", destination := "", departure_date := none,
      return_date := none, budget := none, passengers := 1,
      flight_budget := none } rfl (.inl rfl)

/-- C8: when the origin resolves to a truthy code but the destination
resolves to `None`, `get_flights` returns the error object whose message
names the destination specifically, and no flight-search request is
issued. -/
theorem dest_unresolved_names_destination (m : SkyMap)
    (aOracle : String → Option String) (fOracle : FlightReq → List Itinerary)
    (origin destination departure_date : String) (return_date : Option String)
    (passengers : Nat) (c : String)
    (h1 : (get_sky_id_dynamic m aOracle origin).result = .ok (some c))
    (hc : c ≠ "")
    (h2 : (get_sky_id_dynamic (get_sky_id_dynamic m aOracle origin).map
        aOracle destination).result = .ok none) :
    (get_flights m aOracle fOracle origin destination departure_date
        return_date passengers).result =
      .ok (.errorMsg ("Could not find airport code for destination: " ++ destination)) ∧
    (get_flights m aOracle fOracle origin destination departure_date
        return_date passengers).flightCalls = [] := by
  constructor <;> simp [get_flights, h1, h2, truthyOpt, hc]

/-- Witness for C8: origin in the gazetteer, destination unknown with a
failing search oracle. -/
theorem dest_unresolved_names_destination_witness :
    (get_flights [("paris", "PARI")] (fun _ => none) (fun _ => []) "Paris"
        "Atlantida" "2025-07-10" none 1).result =
      .ok (.errorMsg ("Could not find airport code for destination: " ++ "Atlantida")) ∧
    (get_flights [("paris", "PARI")] (fun _ => none) (fun _ => []) "Paris"
        "Atlantida" "2025-07-10" none 1).flightCalls = [] :=
  dest_unresolved_names_destination [("paris", "PARI")] (fun _ => none) (fun _ => [])
    "Paris" "Atlantida" "2025-07-10" none 1 "PARI" rfl (by decide) rfl

/-- C7: the documented scenario query extracts origin "New York",
destination "Dallas", 2 passengers, budget 500, flight budget 200 (40% of
500), and July 10 / July 13 dates anchored to the current year, for every
current year. -/
theorem extract_scenario_new_york_dallas (year : Nat) :
    extract_flight_details year
        "from New York to Dallas from July 10 to July 13 budget 500 for 2 people" =
      .ok { origin := "New York", destination := "Dallas",
            departure_date := some (fmtDate year 7 10),
            return_date := some (fmtDate year 7 13),
            budget := some (.finite 500), passengers := 2,
            flight_budget := some (.finite 200) } := rfl

/-- A query whose date pattern captures a 4301-digit day number. -/
def oversizedDayQuery : String :=
  String.mk ("from july ".data ++ (List.replicate 4301 '9' ++ " to july 13".data))

/-- Counting leading digits across a block of nines. -/
lemma countLeading_replicate_nines (t : List Char) :
    ∀ n : Nat, countLeading asciiDigit (List.replicate n '9' ++ t) =
      n + countLeading asciiDigit t := by
  intro n
  induction n with
  | zero => simp
  | succ k ih =>
    rw [List.replicate_succ, List.cons_append]
    show (if asciiDigit '9' = true then
        countLeading asciiDigit (List.replicate k '9' ++ t) + 1 else 0) = _
    rw [if_pos (by decide), ih]
    omega

/-- The core date pattern on `"july 9…9 to july 13"`: the day capture is
the whole block of nines.  Everything around the block reduces on the
first few characters; the block itself is handled by the replicate
lemmas. -/
lemma matchDateCoreAt_nines (n : Nat) :
    matchDateCoreAt
        ("july ".data ++ (List.replicate (n + 1) '9' ++ " to july 13".data)) =
      some ("july".data, List.replicate (n + 1) '9', "july".data, "13".data) := by
  have hhead : (List.replicate (n + 1) '9' ++ " to july 13".data) =
      '9' :: (List.replicate n '9' ++ " to july 13".data) := by
    rw [List.replicate_succ, List.cons_append]
  have hm1 : countLeading wordChar
      ("july ".data ++ (List.replicate (n + 1) '9' ++ " to july 13".data)) = 4 := rfl
  have ht1 : ("july ".data ++ (List.replicate (n + 1) '9' ++ " to july 13".data)).take 4 =
      "july".data := rfl
  have hd1 : ("july ".data ++ (List.replicate (n + 1) '9' ++ " to july 13".data)).drop 4 =
      ' ' :: (List.replicate (n + 1) '9' ++ " to july 13".data) := rfl
  have hw1 : countLeading pyWs
      (' ' :: (List.replicate (n + 1) '9' ++ " to july 13".data)) = 1 := by
    rw [hhead]
    rfl
  have hd2 : (' ' :: (List.replicate (n + 1) '9' ++ " to july 13".data)).drop 1 =
      List.replicate (n + 1) '9' ++ " to july 13".data := rfl
  have hm2 : countLeading asciiDigit
      (List.replicate (n + 1) '9' ++ " to july 13".data) = n + 1 := by
    rw [countLeading_replicate_nines]
    simp [show countLeading asciiDigit " to july 13".data = 0 from rfl]
  have hg2 : (List.replicate (n + 1) '9' ++ " to july 13".data).take (n + 1) =
      List.replicate (n + 1) '9' :=
    List.take_left' (by simp)
  have hc3 : (List.replicate (n + 1) '9' ++ " to july 13".data).drop (n + 1) =
      " to july 13".data :=
    List.drop_left' (by simp)
  unfold matchDateCoreAt
  simp only [hm1, ht1, hd1, hw1, hd2, hm2, hg2, hc3]
  rfl

/-- The `from`-anchored date pattern matches `oversizedDayQuery` at the
very first position, capturing the block of nines as the day. -/
lemma matchDate1At_oversized (n : Nat) :
    matchDate1At
        ("from july ".data ++ (List.replicate (n + 1) '9' ++ " to july 13".data)) =
      some ("july".data, List.replicate (n + 1) '9', "july".data, "13".data) :=
  matchDateCoreAt_nines n

/-- An error of `pyIntDigits` is always the integer-conversion
`ValueError`. -/
lemma pyIntDigits_error (g : List Char) (e : PyErr) :
    pyIntDigits g = .error e → e = .valueError := by
  unfold pyIntDigits
  split
  · intro h
    injection h with h1
    exact h1.symm
  · intro h
    cases h

/-- An error of the date branch is always the integer-conversion
`ValueError`. -/
lemma datesOf_error (year : Nat)
    (dm : Option (List Char × List Char × List Char × List Char)) (e : PyErr) :
    datesOf year dm = .error e → e = .valueError := by
  cases dm with
  | none =>
    intro h
    cases h
  | some gs =>
    obtain ⟨g1, g2, g3, g4⟩ := gs
    simp only [datesOf]
    split
    · intro h
      split at h
      · rename_i e1 hi2
        injection h with h1
        exact h1 ▸ pyIntDigits_error g2 e1 hi2
      · rename_i day1 hi2
        split at h
        · rename_i e2 hi4
          injection h with h1
          exact h1 ▸ pyIntDigits_error g4 e2 hi4
        · cases h
    · intro h
      cases h

/-- An error of the passengers branch is always the integer-conversion
`ValueError`. -/
lemma passengersOf_error (pm : Option (List Char)) (e : PyErr) :
    passengersOf pm = .error e → e = .valueError := by
  cases pm with
  | none =>
    intro h
    cases h
  | some g => exact pyIntDigits_error g e

/-- C9 counterexample: `extract_flight_details` is not total.  On CPython
3.8.14+/3.9.14+/3.10.7+/3.11+ the unguarded `int()` at
flight_agent.py:442 raises `ValueError` once the matched day capture
exceeds the default 4300-digit integer-conversion limit; the query
`"from july 9…9 to july 13"` with 4301 nines does exactly that. -/
theorem extractor_total_claim_refuted :
    extract_flight_details 2025 oversizedDayQuery = .error .valueError := by
  have hm := matchDate1At_oversized 4300
  rw [(by norm_num : (4300 : Nat) + 1 = 4301)] at hm
  have hsearch : pySearch matchDate1At oversizedDayQuery.data =
      some ("july".data, List.replicate 4301 '9', "july".data, "13".data) := by
    show (matchDate1At ("from july ".data ++
        (List.replicate 4301 '9' ++ " to july 13".data))).orElse _ =
      some ("july".data, List.replicate 4301 '9', "july".data, "13".data)
    rw [hm]
    rfl
  have hdm : ((pySearch matchDate1At oversizedDayQuery.data).orElse
      fun _ => pySearch matchDateCoreAt oversizedDayQuery.data) =
      some ("july".data, List.replicate 4301 '9', "july".data, "13".data) := by
    rw [hsearch]
    rfl
  have hip : pyIntDigits (List.replicate 4301 '9') = .error .valueError := by
    unfold pyIntDigits
    rw [if_pos (by rw [List.length_replicate]; omega)]
  have hdates : datesOf 2025 (some ("july".data, List.replicate 4301 '9',
      "july".data, "13".data)) = .error .valueError := by
    simp only [datesOf]
    simp only [show monthOf "july".data = some 7 from rfl, hip]
  simp only [extract_flight_details]
  rw [hdm, hdates]

/-- C9 (amended): `extract_flight_details` raises only CPython's
integer-conversion `ValueError`, and only from an `int()` call on a
matched day-number or passenger-count capture of more than 4300 digits
(flight_agent.py:442/443/446); for every query whose matched digit
captures stay within 4300 digits it returns a result, in which each
unmatched field takes its documented default — empty strings for origin
and destination, `None` for the dates, `None` for budget and flight
budget, and 1 passenger. -/
theorem extractor_defaults (year : Nat) (query : String) :
    (((∀ g1 g2 g3 g4,
        ((pySearch matchDate1At query.data).orElse
            fun _ => pySearch matchDateCoreAt query.data) = some (g1, g2, g3, g4) →
        g2.length ≤ 4300 ∧ g4.length ≤ 4300) →
      (∀ g, pySearch matchPeopleAt query.data = some g → g.length ≤ 4300) →
      ∃ d, extract_flight_details year query = .ok d) ∧
      ∀ e, extract_flight_details year query = .error e → e = .valueError) ∧
    (∀ d, extract_flight_details year query = .ok d →
      (pySearch matchOriginAt query.data = none → d.origin = "") ∧
      (pySearch matchDestAt query.data = none → d.destination = "") ∧
      (pySearch matchDate1At query.data = none →
        pySearch matchDateCoreAt query.data = none →
        d.departure_date = none ∧ d.return_date = none) ∧
      (pySearch matchBudgetAt query.data = none →
        d.budget = none ∧ d.flight_budget = none) ∧
      (pySearch matchPeopleAt query.data = none → d.passengers = 1)) := by
  constructor
  · constructor
    · intro hdates hpeople
      have hdok : ∃ v, datesOf year ((pySearch matchDate1At query.data).orElse
          fun _ => pySearch matchDateCoreAt query.data) = .ok v := by
        cases hdm : (pySearch matchDate1At query.data).orElse
            fun _ => pySearch matchDateCoreAt query.data with
        | none => exact ⟨_, rfl⟩
        | some gs =>
          obtain ⟨g1, g2, g3, g4⟩ := gs
          obtain ⟨h2, h4⟩ := hdates g1 g2 g3 g4 hdm
          have hi2 : pyIntDigits g2 = .ok (digitsToNat g2) := by
            unfold pyIntDigits
            rw [if_neg (by omega)]
          have hi4 : pyIntDigits g4 = .ok (digitsToNat g4) := by
            unfold pyIntDigits
            rw [if_neg (by omega)]
          simp only [datesOf]
          cases monthOf g1 <;> cases monthOf g3 <;> simp [hi2, hi4]
      have hpok : ∃ p, passengersOf (pySearch matchPeopleAt query.data) = .ok p := by
        cases hp : pySearch matchPeopleAt query.data with
        | none => exact ⟨_, rfl⟩
        | some g =>
          have hg := hpeople g hp
          have hi : pyIntDigits g = .ok (digitsToNat g) := by
            unfold pyIntDigits
            rw [if_neg (by omega)]
          exact ⟨_, hi⟩
      obtain ⟨v, hv⟩ := hdok
      obtain ⟨p, hp⟩ := hpok
      simp only [extract_flight_details]
      simp only [hv, hp]
      exact ⟨_, rfl⟩
    · intro e he
      simp only [extract_flight_details] at he
      split at he
      · rename_i e0 hde
        injection he with h1
        exact h1 ▸ datesOf_error year _ e0 hde
      · rename_i dates hde
        split at he
        · rename_i e0 hpe
          injection he with h1
          exact h1 ▸ passengersOf_error _ e0 hpe
        · cases he
  · intro d hd
    simp only [extract_flight_details] at hd
    split at hd
    · cases hd
    · rename_i dates hde
      split at hd
      · cases hd
      · rename_i ps hpe
        injection hd with h1
        subst h1
        refine ⟨fun h => by simp [h], fun h => by simp [h], fun h1 h2 => ?_,
          fun h => by simp [h], fun h => ?_⟩
        · simp only [h1, h2, Option.orElse] at hde
          simp only [datesOf] at hde
          injection hde with h3
          rw [← h3]
          exact ⟨rfl, rfl⟩
        · rw [h] at hpe
          injection hpe with h3
          exact h3.symm

/-- Witness for the amended C9 at a query matching none of the patterns. -/
theorem extractor_defaults_witness :
    ∃ d, extract_flight_details 2025 "zzz" = .ok d ∧
      d.origin = "" ∧ d.destination = "" ∧ d.departure_date = none ∧
      d.return_date = none ∧ d.budget = none ∧ d.flight_budget = none ∧
      d.passengers = 1 := by
  obtain ⟨d, hd⟩ := (extractor_defaults 2025 "zzz").1.1
    (fun g1 g2 g3 g4 hg => by
      rw [show ((pySearch matchDate1At ("zzz" : String).data).orElse
          fun _ => pySearch matchDateCoreAt ("zzz" : String).data) = none from rfl] at hg
      exact Option.noConfusion hg)
    (fun g hg => by
      rw [show pySearch matchPeopleAt ("zzz" : String).data = none from rfl] at hg
      exact Option.noConfusion hg)
  have hb := (extractor_defaults 2025 "zzz").2 d hd
  exact ⟨d, hd, hb.1 rfl, hb.2.1 rfl, (hb.2.2.1 rfl rfl).1, (hb.2.2.1 rfl rfl).2,
    (hb.2.2.2.1 rfl).1, (hb.2.2.2.1 rfl).2, hb.2.2.2.2 rfl⟩

/-! ## Concrete itineraries for the normalization claims -/

/-- A one-way leg with full marketing data. -/
def demoLeg : Leg :=
  ⟨some [⟨some "DemoAir", some "DA100"⟩], some "2025-07-10T08:00",
   some "2025-07-10T12:00", some 0, some 240⟩

/-- Outbound leg of a two-leg itinerary. -/
def outLeg : Leg :=
  ⟨some [⟨some "OutAir", some "OA1"⟩], some "2025-07-10T09:00",
   some "2025-07-10T13:00", some 1, some 300⟩

/-- Return leg of a two-leg itinerary. -/
def retLeg : Leg :=
  ⟨some [⟨some "RetAir", some "RA2"⟩], some "2025-07-13T17:00",
   some "2025-07-13T21:00", some 0, some 250⟩

/-- A well-formed two-leg (roundtrip) itinerary. -/
def rtItin : Itinerary := ⟨[outLeg, retLeg], some [⟨some (.str "350.00")⟩], "rt-1"⟩

/-- A well-formed one-leg itinerary. -/
def owItin : Itinerary := ⟨[demoLeg], some [⟨some (.str "120.00")⟩], "ow-1"⟩

/-- C1 (code bug): with a return date supplied and a two-leg itinerary,
no offer with `outbound`/`return` sub-records is produced.  When the
two-leg itinerary comes first, the dedented one-way block reads the
never-assigned `leg` local, the `UnboundLocalError` is swallowed by the
blanket `except`, and the call returns the error dict with an empty offer
list; when a one-way itinerary precedes it, the roundtrip record is
overwritten by a one-way record built from the previous itinerary's leg
(stale airline, times and stops under the roundtrip itinerary's price and
id). -/
theorem roundtrip_offer_never_emitted :
    process_flight_results [rtItin] (some "2025-07-13") =
      ⟨[], 0, none, some .unboundLocalError⟩ ∧
    process_flight_results [owItin, rtItin] (some "2025-07-13") =
      ⟨[.oneWay "DemoAir" "DA100" (.str "120.00") "2025-07-10T08:00"
          "2025-07-10T12:00" 0 240 "ow-1",
        .oneWay "DemoAir" "DA100" (.str "350.00") "2025-07-10T08:00"
          "2025-07-10T12:00" 0 240 "rt-1"],
       2, none, none⟩ := by
  constructor <;> rfl

/-- Weak comparison follows from strict comparison on Python floats. -/
lemma leF_of_ltF : ∀ x y : PyFloat, ltF x y = true → leF x y = true
  | .finite a, .finite b, h => by
    simp [ltF] at h
    simpa [leF] using le_of_lt h
  | .finite _, .pinf, _ => rfl
  | .ninf, .finite _, _ => rfl
  | .ninf, .pinf, _ => rfl
  | .ninf, .ninf, h => by simp [ltF] at h
  | .finite _, .ninf, h => by simp [ltF] at h
  | .pinf, y, h => by cases y <;> simp [ltF] at h
  | .nan, _, h => by simp [ltF] at h
  | .finite _, .nan, h => by simp [ltF] at h
  | .ninf, .nan, h => by simp [ltF] at h

/-- On non-NaN Python floats, a false strict comparison yields the
reversed weak comparison (on NaN both directions are false). -/
lemma leF_of_not_ltF : ∀ x y : PyFloat, x ≠ PyFloat.nan → y ≠ PyFloat.nan →
    ltF y x = false → leF x y = true
  | .finite a, .finite b, _, _, h => by
    simp [ltF] at h
    simpa [leF] using h
  | .finite _, .pinf, _, _, _ => rfl
  | .pinf, .pinf, _, _, _ => rfl
  | .ninf, .finite _, _, _, _ => rfl
  | .ninf, .pinf, _, _, _ => rfl
  | .ninf, .ninf, _, _, _ => rfl
  | .finite _, .ninf, _, _, h => by simp [ltF] at h
  | .pinf, .finite _, _, _, h => by simp [ltF] at h
  | .pinf, .ninf, _, _, h => by simp [ltF] at h
  | .nan, _, hx, _, _ => absurd rfl hx
  | _, .nan, _, hy, _ => absurd rfl hy

/-- Weak float comparison is transitive (a true comparison rules NaN
out). -/
lemma leF_trans (x y z : PyFloat) (h1 : leF x y = true) (h2 : leF y z = true) :
    leF x z = true := by
  cases x <;> cases y <;> cases z <;> simp_all [leF] <;> exact le_trans h1 h2

/-- Nothing weakly above `+inf` but `+inf` itself. -/
lemma leF_pinf_left (y : PyFloat) (h : leF PyFloat.pinf y = true) :
    y = PyFloat.pinf := by
  cases y <;> first | rfl | simp [leF] at h

/-- Transitivity of the offer order. -/
lemma offerLe_trans (a b c : Offer) (h1 : offerLe a b) (h2 : offerLe b c) :
    offerLe a c :=
  leF_trans _ _ _ h1 h2

/-- Inserting into a sorted list keeps it sorted, provided no key in
sight is NaN. -/
lemma pairwise_orderedInsert (a : Offer) :
    ∀ l : List Offer, priceKey a ≠ PyFloat.nan →
      (∀ x ∈ l, priceKey x ≠ PyFloat.nan) → l.Pairwise offerLe →
      (List.orderedInsert sortRel a l).Pairwise offerLe := by
  intro l
  induction l with
  | nil =>
    intro _ _ _
    simp [List.orderedInsert]
  | cons b t ih =>
    intro ha hmem hp
    simp only [List.orderedInsert]
    by_cases hab : sortRel a b
    · rw [if_pos hab]
      refine List.pairwise_cons.mpr ⟨?_, hp⟩
      intro y hy
      have hale : offerLe a b :=
        leF_of_not_ltF _ _ ha (hmem b (List.mem_cons_self b t)) hab
      rcases List.mem_cons.mp hy with rfl | hyt
      · exact hale
      · exact offerLe_trans a b y hale ((List.pairwise_cons.mp hp).1 y hyt)
    · rw [if_neg hab]
      have hlt : ltF (priceKey b) (priceKey a) = true := by
        cases hc : ltF (priceKey b) (priceKey a) with
        | false => exact absurd hc hab
        | true => rfl
      have hba : offerLe b a := leF_of_ltF _ _ hlt
      refine List.pairwise_cons.mpr
        ⟨?_, ih ha (fun x hx => hmem x (List.mem_cons_of_mem b hx))
          (List.pairwise_cons.mp hp).2⟩
      intro y hy
      rcases (List.mem_orderedInsert sortRel).mp hy with rfl | hyt
      · exact hba
      · exact (List.pairwise_cons.mp hp).1 y hyt

/-- The insertion sort over the placement relation is sorted under the
weak offer order whenever no price key is NaN. -/
lemma sortOffers_pairwise : ∀ l : List Offer,
    (∀ x ∈ l, priceKey x ≠ PyFloat.nan) → (sortOffers l).Pairwise offerLe := by
  intro l
  induction l with
  | nil =>
    intro _
    simp [sortOffers, List.insertionSort]
  | cons a t ih =>
    intro hnn
    simp only [sortOffers, List.insertionSort]
    refine pairwise_orderedInsert a _ (hnn a (List.mem_cons_self a t)) ?_ ?_
    · intro x hx
      exact hnn x (List.mem_cons_of_mem a
        ((List.perm_insertionSort sortRel t).mem_iff.mp hx))
    · exact ih fun x hx => hnn x (List.mem_cons_of_mem a hx)

/-- In a sorted offer list, everything after a `+inf`-keyed offer is
itself `+inf`-keyed. -/
lemma pairwise_pinf_last (l : List Offer) (h : l.Pairwise offerLe) :
    l.Pairwise fun a b => priceKey a = PyFloat.pinf → priceKey b = PyFloat.pinf :=
  h.imp fun hab hpa => leF_pinf_left _ (hpa ▸ hab)

/-- C3 counterexample: the claim fails on prices Python `float()` maps to
NaN or infinity.  With prices `"5"`, `"nan"`, `"3"` the sort keys are
`[5, NaN, 3]`; every comparison against the NaN key is false, so no
arrangement of these three offers is pairwise non-decreasing (the model's
stable insertion sort returns them in key order `[5, NaN, 3]`, as CPython
does).  With prices `"N/A"`, `"inf"` both keys are `+inf` and the stable
sort keeps the input order, so the unparsable `"N/A"` offer precedes the
parsable `"inf"` offer. -/
theorem normalizer_sort_claim_refuted :
    (¬ ∀ (itins : List Itinerary) (rd : Option String) (l : List Offer),
        normalizePass rd (itins.take 10) none = .ok l →
        (process_flight_results itins rd).data.Pairwise offerLe) ∧
    ¬ ∀ (itins : List Itinerary) (rd : Option String) (l : List Offer),
        normalizePass rd (itins.take 10) none = .ok l →
        (process_flight_results itins rd).data.Pairwise
          fun a b => pyFloat a.price = none → pyFloat b.price = none := by
  constructor
  · intro h
    exact absurd
      (h [⟨[demoLeg], some [⟨some (.str "5")⟩], "a"⟩,
          ⟨[demoLeg], some [⟨some (.str "nan")⟩], "b"⟩,
          ⟨[demoLeg], some [⟨some (.str "3")⟩], "c"⟩] none _ rfl)
      (by decide)
  · intro h
    exact absurd
      (h [⟨[demoLeg], some [⟨some (.str "N/A")⟩], "a"⟩,
          ⟨[demoLeg], some [⟨some (.str "inf")⟩], "b"⟩] none _ rfl)
      (by decide)

/-- C3 (amended): whenever the normalization loop succeeds with list `l`,
`_process_flight_results` returns exactly the stably sorted `l` with its
length as count, and the output is a permutation of `l` (no offer is
dropped); when no price key is NaN, the output is in addition pairwise
non-decreasing under the numeric price key (unparsable prices keyed
`+inf`), and every offer after a `+inf`-keyed offer is itself
`+inf`-keyed — the stable-sort restatement of "unparsable prices sort
last", which also covers prices that parse to `inf`. -/
theorem normalizer_output_sorted (itins : List Itinerary) (rd : Option String)
    (l : List Offer) (hne : itins ≠ [])
    (h : normalizePass rd (itins.take 10) none = .ok l)
    (hnn : ∀ x ∈ l, priceKey x ≠ PyFloat.nan) :
    process_flight_results itins rd = ⟨sortOffers l, l.length, none, none⟩ ∧
    (sortOffers l).Pairwise offerLe ∧
    (sortOffers l).Perm l ∧
    (sortOffers l).Pairwise
      (fun a b => priceKey a = PyFloat.pinf → priceKey b = PyFloat.pinf) := by
  refine ⟨?_, ?_, ?_, ?_⟩
  · cases itins with
    | nil => exact absurd rfl hne
    | cons a t =>
      simp only [List.take_succ_cons] at h
      simp [process_flight_results, h]
  · exact sortOffers_pairwise l hnn
  · exact List.perm_insertionSort sortRel l
  · exact pairwise_pinf_last _ (sortOffers_pairwise l hnn)

/-- Offer with price "300" from `demoLeg`. -/
def wOfferA : Offer :=
  .oneWay "DemoAir" "DA100" (.str "300") "2025-07-10T08:00" "2025-07-10T12:00"
    0 240 "a"

/-- Offer with price "100" from `demoLeg`. -/
def wOfferB : Offer :=
  .oneWay "DemoAir" "DA100" (.str "100") "2025-07-10T08:00" "2025-07-10T12:00"
    0 240 "b"

/-- Offer with the unparsable price "N/A" from `demoLeg`. -/
def wOfferN : Offer :=
  .oneWay "DemoAir" "DA100" (.str "N/A") "2025-07-10T08:00" "2025-07-10T12:00"
    0 240 "n"

/-- Witness for the amended C3 on a concrete response with prices 300,
100, N/A. -/
theorem normalizer_output_sorted_witness :
    process_flight_results
        [⟨[demoLeg], some [⟨some (.str "300")⟩], "a"⟩,
         ⟨[demoLeg], some [⟨some (.str "100")⟩], "b"⟩,
         ⟨[demoLeg], some [⟨some (.str "N/A")⟩], "n"⟩] none =
      ⟨sortOffers [wOfferA, wOfferB, wOfferN], 3, none, none⟩ ∧
    (sortOffers [wOfferA, wOfferB, wOfferN]).Pairwise offerLe ∧
    (sortOffers [wOfferA, wOfferB, wOfferN]).Perm [wOfferA, wOfferB, wOfferN] ∧
    (sortOffers [wOfferA, wOfferB, wOfferN]).Pairwise
      (fun a b => priceKey a = PyFloat.pinf → priceKey b = PyFloat.pinf) :=
  normalizer_output_sorted _ none [wOfferA, wOfferB, wOfferN]
    (List.cons_ne_nil _ _) rfl (by decide)

/-! ## Lemmas about the airport lookup order (C2) -/

/-- The first CSV pass is first-match on exact (case-insensitive) name
with a truthy code. -/
lemma csvExactPass_eq (name : String) :
    ∀ rows : List CsvRow, csvExactPass name rows =
      (rows.find? fun r =>
        lowerL r.name.data = lowerL name.data && r.iata_code ≠ "").map
        (fun r => r.iata_code) := by
  intro rows
  induction rows with
  | nil => rfl
  | cons row rest ih =>
    simp only [csvExactPass, List.find?_cons]
    cases hb : ((lowerL row.name.data = lowerL name.data && row.iata_code ≠ "" : Bool)) with
    | true => simp [hb]
    | false => simp [hb, ih]

/-- The second CSV pass is first-match on substring name with a truthy
code. -/
lemma csvSubPass_eq (name : String) :
    ∀ rows : List CsvRow, csvSubPass name rows =
      (rows.find? fun r =>
        containsSubL (lowerL name.data) (lowerL r.name.data) && r.iata_code ≠ "").map
        (fun r => r.iata_code) := by
  intro rows
  induction rows with
  | nil => rfl
  | cons row rest ih =>
    simp only [csvSubPass, List.find?_cons]
    cases hb : ((containsSubL (lowerL name.data) (lowerL row.name.data)
        && row.iata_code ≠ "" : Bool)) with
    | true => simp [hb]
    | false => simp [hb, ih]

/-- The third CSV pass is first-match on municipality substring with a
truthy code. -/
lemma csvMuniPass_eq (city : String) :
    ∀ rows : List CsvRow, csvMuniPass city rows =
      (rows.find? fun r =>
        r.municipality ≠ ""
          && containsSubL (lowerL city.data) (lowerL r.municipality.data)
          && r.iata_code ≠ "").map (fun r => r.iata_code) := by
  intro rows
  induction rows with
  | nil => rfl
  | cons row rest ih =>
    simp only [csvMuniPass, List.find?_cons]
    cases hb : ((row.municipality ≠ ""
        && containsSubL (lowerL city.data) (lowerL row.municipality.data)
        && row.iata_code ≠ "" : Bool)) with
    | true => simp [hb]
    | false => simp [hb, ih]

/-- The candidate loop interleaves the CSV fallback per candidate. -/
lemma findAirportCodeLoop_eq (table : List CsvRow) (city : String) :
    ∀ cands : List Candidate,
      findAirportCodeLoop table city cands =
        cands.findSome? (fun a =>
          match truthyOpt a.iata_code with
          | some c => some c
          | none => find_iata_in_csv table a.name (some city)) := by
  intro cands
  induction cands with
  | nil => rfl
  | cons a rest ih =>
    simp only [findAirportCodeLoop, List.findSome?_cons]
    cases ha : a.iata_code with
    | none =>
      cases hcsv : find_iata_in_csv table a.name (some city) <;>
        simp [truthyOpt, ha, hcsv, ih]
    | some c =>
      by_cases hc : c = ""
      · subst hc
        cases hcsv : find_iata_in_csv table a.name (some city) <;>
          simp [truthyOpt, ha, hcsv, ih]
      · simp [truthyOpt, ha, hc]

/-- C2 counterexample: the static-table lookup is not deferred until no
candidate yields an extracted code.  With a first candidate that has no
extractable code but matches the CSV table and a second candidate whose
display name carries `(BBB)`, the code returns the CSV hit of the first
candidate while the claimed two-phase order returns the second
candidate's extracted code. -/
theorem csv_fallback_order_refuted :
    ¬ ∀ (table : List CsvRow) (city : String) (geocoded : Bool)
        (raws : List GeoRec),
        find_airport_code table city geocoded raws =
          find_airport_code_claim table city geocoded raws := by
  intro h
  have h2 := h [⟨"Alpha Field", "AAA", "Alphaville"⟩] "Anytown" true
    [⟨some "Alpha Field", []⟩, ⟨some "Beta Airport (BBB)", []⟩]
  exact absurd h2 (by decide)

/-- C2 (amended): the lookup is per-candidate — for each nearby airport in
distance order, a truthy extracted code (display-name parentheses or
iata-tagged alternate name, `extract_iata_code`) wins, and otherwise the
CSV lookup for that candidate's name is consulted before the next
candidate is considered; within the CSV lookup the exact-name pass
precedes the substring-name pass, which precedes the municipality pass
against the original city name, each first-match-wins. -/
theorem airport_lookup_order (table : List CsvRow) (city : String)
    (raws : List GeoRec) :
    (find_airport_code table city true raws =
      (raws.map candidateOf).findSome? (fun a =>
        match truthyOpt a.iata_code with
        | some c => some c
        | none => find_iata_in_csv table a.name (some city))) ∧
    (∀ name : String, csvExactPass name table =
      (table.find? fun r =>
        lowerL r.name.data = lowerL name.data && r.iata_code ≠ "").map
        (fun r => r.iata_code)) ∧
    (∀ name : String, csvSubPass name table =
      (table.find? fun r =>
        containsSubL (lowerL name.data) (lowerL r.name.data) && r.iata_code ≠ "").map
        (fun r => r.iata_code)) ∧
    (csvMuniPass city table =
      (table.find? fun r =>
        r.municipality ≠ ""
          && containsSubL (lowerL city.data) (lowerL r.municipality.data)
          && r.iata_code ≠ "").map (fun r => r.iata_code)) := by
  refine ⟨?_, fun name => csvExactPass_eq name table,
    fun name => csvSubPass_eq name table, csvMuniPass_eq city table⟩
  cases raws with
  | nil => rfl
  | cons a t =>
    simp only [find_airport_code]
    simp [findAirportCodeLoop_eq]
